import Mathlib

/-!
Verification development for the `youtube` cog of
`bot/exts/evergreen/youtube.py`: a Discord command that queries the
YouTube search API, fetches per-video statistics, formats the results
and replies in the invoking channel.

The Python code is embedded shallowly:

* JSON response bodies are values of an inductive `Json` type.
* The HTTP world is an `Env`: the response the search endpoint gives for
  this invocation, and the response the statistics (details) endpoint
  gives for each video id.
* Python exceptions (KeyError / IndexError / TypeError raised while
  digging into a decoded body) are the `.error` branch of
  `Except String`; the explicit `return None` of the source is
  `Option.none` inside the `.ok` branch.
* Side effects are made explicit: `get_statistics` also returns the list
  of log messages it emits, and `search_youtube` also returns the list
  of video ids it passed to `get_statistics` (one entry per details
  request issued).  The command handler returns the list of messages
  sent to the channel.
-/

/-- A decoded JSON value, as handed back by `response.json()`. -/
inductive Json where
  | str (s : String)
  | num (n : Int)
  | arr (elems : List Json)
  | obj (fields : List (String × Json))
deriving Repr

/-- Python `d[key]` on a decoded body: field lookup, `none` when the
lookup raises (missing key, or the value is not an object). -/
def Json.get : Json → String → Option Json
  | .obj fields, key => (fields.find? (fun f => f.fst == key)).map Prod.snd
  | _, _ => none

/-- Python `l[i]` on a decoded body: list indexing, `none` when the
indexing raises (out of range, or the value is not a list). -/
def Json.idx : Json → Nat → Option Json
  | .arr elems, i => elems.get? i
  | _, _ => none

/-- View a JSON value as a list (Python iteration over it). -/
def Json.asArr : Json → Option (List Json)
  | .arr elems => some elems
  | _ => none

/-- View a JSON value as a string. -/
def Json.asStr : Json → Option String
  | .str s => some s
  | _ => none

/-- Whether a JSON value is an integer. -/
def Json.isInt : Json → Bool
  | .num _ => true
  | _ => false

/-- Python `str()` as used by `str.format` on values taken from a JSON
body.  Strings render as themselves and integers in decimal; the
list/object cases never arise in the scenarios of this development and
are given a schematic rendering. -/
def pyStr : Json → String
  | .str s => s
  | .num n => toString n
  | .arr _ => "<list>"
  | .obj _ => "<dict>"

/-- One HTTP response: status code and decoded JSON body. -/
structure Response where
  status : Nat
  body : Json
deriving Repr

/-- The HTTP world one command invocation runs against: what the search
endpoint answers for this query, and what the details endpoint answers
for each video id (`get_statistics` passes the id value through
unchanged, so the key is a `Json` value). -/
structure Env where
  search_response : Response
  stats_response : Json → Response

/-- `VideoStatistics` dataclass.  The Python class annotates both fields
as `int`, but a dataclass performs no conversion or checking: the
constructor stores exactly the values extracted from the decoded
response body, whatever their type.  The fields therefore hold raw
`Json` values here. -/
structure VideoStatistics where
  view_count : Json
  like_count : Json
deriving Repr

/-- `Video` dataclass: one search result. -/
structure Video where
  title : String
  username : String
  id : Json
  video_statistics : VideoStatistics
deriving Repr

/-- Model of `html.unescape` (Python standard library collaborator),
restricted to the named entities relevant here: replaces `&amp;`,
`&lt;`, `&gt;`, `&quot;` by the character they denote and leaves
everything else unchanged. -/
def unescapeAux : List Char → List Char
  | [] => []
  | '&' :: 'a' :: 'm' :: 'p' :: ';' :: rest => '&' :: unescapeAux rest
  | '&' :: 'l' :: 't' :: ';' :: rest => '<' :: unescapeAux rest
  | '&' :: 'g' :: 't' :: ';' :: rest => '>' :: unescapeAux rest
  | '&' :: 'q' :: 'u' :: 'o' :: 't' :: ';' :: rest => '"' :: unescapeAux rest
  | c :: rest => c :: unescapeAux rest

/-- Model of `html.unescape` on strings. -/
def unescape (s : String) : String := ⟨unescapeAux s.data⟩

/-- The markdown control characters `discord.utils.escape_markdown`
escapes character-wise: `_`, `\`, `~`, `|`, `*` and the backquote
(code 96). -/
def isMarkdownSpecial (c : Char) : Bool :=
  c = '_' || c = '\\' || c = '~' || c = '|' || c = '*' || c.toNat = 96

/-- Model of `discord.utils.escape_markdown` (discord.py collaborator):
prefixes every markdown control character with a backslash. -/
def escape_markdown (s : String) : String :=
  ⟨(s.data.map (fun c => if isMarkdownSpecial c then ['\\', c] else [c])).flatten⟩

/-- UTF-8 encoding of one character, as a list of byte values. -/
def utf8Bytes (c : Char) : List Nat :=
  let n := c.toNat
  if n < 0x80 then [n]
  else if n < 0x800 then [0xC0 + n / 64, 0x80 + n % 64]
  else if n < 0x10000 then [0xE0 + n / 4096, 0x80 + n / 64 % 64, 0x80 + n % 64]
  else [0xF0 + n / 262144, 0x80 + n / 4096 % 64, 0x80 + n / 64 % 64, 0x80 + n % 64]

/-- Uppercase hexadecimal digit. -/
def hexDigit (d : Nat) : Char :=
  if d < 10 then Char.ofNat (48 + d) else Char.ofNat (55 + d)

/-- Bytes `urllib.parse.quote_plus` leaves as-is: ASCII letters, digits
and `_`, `.`, `-`, `~`. -/
def quoteSafe (n : Nat) : Bool :=
  (48 ≤ n && n ≤ 57) || (65 ≤ n && n ≤ 90) || (97 ≤ n && n ≤ 122) ||
    n == 95 || n == 46 || n == 45 || n == 126

/-- How `urllib.parse.quote_plus` renders one byte of the UTF-8
encoding: space becomes `+`, safe bytes stand for themselves, every
other byte is percent-encoded in uppercase hexadecimal. -/
def quoteByte (n : Nat) : List Char :=
  if n == 32 then ['+']
  else if quoteSafe n then [Char.ofNat n]
  else ['%', hexDigit (n / 16), hexDigit (n % 16)]

/-- Model of `urllib.parse.quote_plus` (Python standard library
collaborator): percent-encodes the UTF-8 encoding of the string, with
spaces turned into `+`. -/
def quote_plus (s : String) : String :=
  ⟨(s.data.map (fun c => ((utf8Bytes c).map quoteByte).flatten)).flatten⟩

/-- Modelled from the spec: the decorative glyphs of `bot.constants.Emojis`
(the repository's constants module is not part of the sources here; the
spec only calls them "fixed decorative glyphs", so they are fixed opaque
strings). -/
def Emojis.post_detail : String := ":post_detail:"

/-- Modelled from the spec: `bot.constants.Emojis.user`. -/
def Emojis.user : String := ":user:"

/-- Modelled from the spec: `bot.constants.Emojis.view`. -/
def Emojis.view : String := ":view:"

/-- Modelled from the spec: `bot.constants.Emojis.like`. -/
def Emojis.like : String := ":like:"

/-- Modelled from the spec: `bot.constants.Emojis.youtube`. -/
def Emojis.youtube : String := ":youtube:"

/-- Modelled from the spec: `bot.constants.Colours.dark_green`. -/
def Colours.dark_green : Nat := 0x1F8B4C

/-- Modelled from the spec: `bot.constants.Colours.soft_red`. -/
def Colours.soft_red : Nat := 0xCD6D6D

/-- Decimal digit character: `digitCh d` is the character for digit `d`. -/
def digitCh (d : Nat) : Char := Char.ofNat (48 + d)

/-- Decimal digit list of a natural number (most significant first),
the embedding of Python `str()` on a non-negative `int`. -/
def natChars (n : Nat) : List Char :=
  if h : n < 10 then [digitCh n]
  else natChars (n / 10) ++ [digitCh (n % 10)]
decreasing_by exact Nat.div_lt_self (by omega) (by omega)

/-- Decimal rendering of a natural number, the embedding of Python
`str(index)` in `str.format`. -/
def natStr (n : Nat) : String := ⟨natChars n⟩

/-- `YOUTUBE_VIDEO_URL.format(id=...)`. -/
def YOUTUBE_VIDEO_URL (id : Json) : String :=
  "https://www.youtube.com/watch?v=" ++ pyStr id

/-- `YOUTUBE_SEARCH_URL.format(search=...)`. -/
def YOUTUBE_SEARCH_URL (search : String) : String :=
  "https://www.youtube.com/results?search_query=" ++ search

/-- Everything of the rendered `RESULT` template after the leading
`"**"` and the rank number: it depends on the video only. -/
def rankTail (result : Video) : String :=
  ". [" ++ result.title ++ "](" ++ YOUTUBE_VIDEO_URL result.id ++ ")**\n" ++
    Emojis.post_detail ++ " " ++ Emojis.user ++ " " ++ result.username ++ " " ++
    Emojis.view ++ " " ++ pyStr result.video_statistics.view_count ++ " " ++
    Emojis.like ++ " " ++ pyStr result.video_statistics.like_count ++ "\n"

/-- `YouTubeSearch.format_search_result`: renders the `RESULT` template
`"**{index}. [{title}]({url})**\n{post_detail_emoji} {user_emoji}
{username} {view_emoji} {view_count} {like_emoji} {like_count}\n"`
at one rank index and one video. -/
def format_search_result (index : Nat) (result : Video) : String :=
  "**" ++ natStr index ++ rankTail result

/-- `YouTubeSearch.get_statistics`: queries the details endpoint for one
video id.  On a non-200 status it logs the status and returns `None`;
otherwise it digs `["items"][0]["statistics"]` out of the body and
builds a `VideoStatistics` from its `viewCount` and `likeCount` (a
missing piece of that shape raises, i.e. yields `.error`).  The second
component is the list of emitted log messages. -/
def get_statistics (env : Env) (id : Json) :
    Except String (Option VideoStatistics) × List String :=
  let response := env.stats_response id
  if response.status ≠ 200 then
    (.ok none,
      ["YouTube statistics response not successful: response code " ++
        toString response.status])
  else
    match response.body.get "items" with
    | none => (.error "KeyError: items", [])
    | some items =>
      match items.idx 0 with
      | none => (.error "IndexError: list index out of range", [])
      | some first =>
        match first.get "statistics" with
        | none => (.error "KeyError: statistics", [])
        | some stats =>
          match stats.get "viewCount" with
          | none => (.error "KeyError: viewCount", [])
          | some vc =>
            match stats.get "likeCount" with
            | none => (.error "KeyError: likeCount", [])
            | some lc => (.ok (some ⟨vc, lc⟩), [])

/-- `item["id"]["videoId"]` for one search item. -/
def extractVideoId (item : Json) : Except String Json :=
  match item.get "id" with
  | none => .error "KeyError: id"
  | some idObj =>
    match idObj.get "videoId" with
    | none => .error "KeyError: videoId"
    | some vid => .ok vid

/-- `item["snippet"]["title"]` of a search item, as a string. -/
def titleOf (item : Json) : Option String :=
  ((item.get "snippet").bind (fun s => s.get "title")).bind Json.asStr

/-- `item["snippet"]["channelTitle"]` of a search item, as a string. -/
def channelOf (item : Json) : Option String :=
  ((item.get "snippet").bind (fun s => s.get "channelTitle")).bind Json.asStr

/-- The `Video(...)` construction of `search_youtube`: title and channel
name are HTML-unescaped then markdown-escaped; a malformed snippet
raises. -/
def buildVideo (item : Json) (vid : Json) (stats : VideoStatistics) :
    Except String Video :=
  match titleOf item with
  | none => .error "KeyError: snippet title"
  | some t =>
    match channelOf item with
    | none => .error "KeyError: snippet channelTitle"
    | some u =>
      .ok ⟨escape_markdown (unescape t), escape_markdown (unescape u), vid, stats⟩

/-- One iteration of the loop of `search_youtube` over a search item:
extract the video id, fetch its statistics, and build the `Video`.
`.ok none` is the abort path taken when the statistics fetch returned
absence. -/
def processItem (env : Env) (item : Json) : Except String (Option Video) :=
  match extractVideoId item with
  | .error e => .error e
  | .ok vid =>
    match (get_statistics env vid).fst with
    | .error e => .error e
    | .ok none => .ok none
    | .ok (some stats) =>
      match buildVideo item vid stats with
      | .error e => .error e
      | .ok v => .ok (some v)

/-- The details requests one loop iteration issues: exactly one, with
the extracted video id, unless the id extraction itself raised first. -/
def statsCallsOfItem (item : Json) : List Json :=
  match extractVideoId item with
  | .error _ => []
  | .ok vid => [vid]

/-- The loop of `search_youtube` over the search items, accumulating the
`results` list; the second component records the ids of the details
requests issued. -/
def searchLoop (env : Env) (items : List Json) (acc : List Video) :
    Except String (Option (List Video)) × List Json :=
  match items with
  | [] => (.ok (some acc), [])
  | item :: rest =>
    match processItem env item with
    | .error e => (.error e, statsCallsOfItem item)
    | .ok none => (.ok none, statsCallsOfItem item)
    | .ok (some v) =>
      let r := searchLoop env rest (acc ++ [v])
      (r.fst, statsCallsOfItem item ++ r.snd)

/-- `YouTubeSearch.search_youtube`: on a non-200 search response returns
`None` at once; otherwise iterates over `body["items"]`, fetching the
statistics of each item in order and aborting the whole search (`None`)
as soon as one statistics fetch returns absence.  The second component
is the list of video ids sent to the details endpoint. -/
def search_youtube (env : Env) (search : String) :
    Except String (Option (List Video)) × List Json :=
  if env.search_response.status ≠ 200 then (.ok none, [])
  else
    match env.search_response.body.get "items" with
    | none => (.error "KeyError: items", [])
    | some itemsJ =>
      match itemsJ.asArr with
      | none => (.error "TypeError: not iterable", [])
      | some items => searchLoop env items []

/-- A Discord embed as built by the handler. -/
structure Embed where
  colour : Nat
  title : String
  url : Option String
  description : String
deriving Repr

/-- The fixed failure reply of the handler. -/
def failureEmbed : Embed :=
  { colour := Colours.soft_red
    title := "Something went wrong :/"
    url := none
    description := "Sorry, we could not find a YouTube video." }

/-- The formatted result lines, one per video, ranked from 1 in list
order (`enumerate(results, start=1)`). -/
def formatLines (vids : List Video) : List String :=
  (List.enumFrom 1 vids).map (fun p => format_search_result p.fst p.snd)

/-- The success reply of the handler for a given query and result list. -/
def successEmbed (search : String) (vids : List Video) : Embed :=
  { colour := Colours.dark_green
    title := Emojis.youtube ++ " YouTube results for `" ++ search ++ "`"
    url := some (YOUTUBE_SEARCH_URL (quote_plus search))
    description := String.intercalate "\n" (formatLines vids) }

/-- `YouTubeSearch.youtube`, the command handler: runs the search and
sends one reply — the success embed when the result list is non-empty
(Python truthiness: both `None` and `[]` are falsy), the fixed failure
embed otherwise.  An exception escaping `search_youtube` (`.error`)
aborts the handler before any reply is sent. -/
def youtube (env : Env) (search : String) : Except String (List Embed) :=
  match (search_youtube env search).fst with
  | .error e => .error e
  | .ok results =>
    match results with
    | some (v :: vs) => .ok [successEmbed search (v :: vs)]
    | some [] => .ok [failureEmbed]
    | none => .ok [failureEmbed]

/-- The messages actually delivered to the channel: none when the
handler aborted with an uncaught exception. -/
def sentMessages : Except String (List Embed) → List Embed
  | .ok msgs => msgs
  | .error _ => []

/-! ### Concrete environments used as witnesses -/

/-- A well-formed search item: the spec's running example. -/
def itemLofi : Json :=
  .obj [("id", .obj [("videoId", .str "abc123")]),
        ("snippet", .obj [("title", .str "Lo-Fi &amp; Chill"),
                          ("channelTitle", .str "BeatsCo")])]

/-- A well-formed statistics response body; the counts are JSON strings,
which is the wire format of the provider (cf. the spec's example
`{viewCount: "100", likeCount: "10"}`). -/
def statsBodyOk : Json :=
  .obj [("items", .arr [.obj [("statistics",
    .obj [("viewCount", .str "100"), ("likeCount", .str "10")])]])]

/-- The `Video` the example search item produces. -/
def vLofi : Video :=
  ⟨"Lo-Fi & Chill", "BeatsCo", .str "abc123", ⟨.str "100", .str "10"⟩⟩

/-- Everything succeeds: one search item, statistics always available. -/
def envOk : Env :=
  ⟨⟨200, .obj [("items", .arr [itemLofi])]⟩, fun _ => ⟨200, statsBodyOk⟩⟩

/-- The search succeeds but every statistics request is answered 403. -/
def envStats403 : Env :=
  ⟨⟨200, .obj [("items", .arr [itemLofi])]⟩, fun _ => ⟨403, .obj []⟩⟩

/-- The search endpoint itself answers 403. -/
def envSearch403 : Env :=
  ⟨⟨403, .obj []⟩, fun _ => ⟨200, statsBodyOk⟩⟩

/-- The search endpoint answers 200 with a body missing `items`. -/
def envNoItems : Env :=
  ⟨⟨200, .obj []⟩, fun _ => ⟨200, statsBodyOk⟩⟩

/-- Statistics responses are 200 but their body is missing `items`. -/
def envStatsNoItems : Env :=
  ⟨⟨200, .obj [("items", .arr [itemLofi])]⟩, fun _ => ⟨200, .obj []⟩⟩

/-- Statistics responses are 200 with an empty `items` array. -/
def envStatsEmpty : Env :=
  ⟨⟨200, .obj [("items", .arr [itemLofi])]⟩,
    fun _ => ⟨200, .obj [("items", .arr [])]⟩⟩

example : (search_youtube envOk "x").fst = .ok (some [vLofi]) := rfl
example : (search_youtube envOk "x").snd = [.str "abc123"] := rfl
example : (search_youtube envStats403 "x").fst = .ok none := rfl
example : search_youtube envSearch403 "x" = (.ok none, []) := rfl
example : (search_youtube envNoItems "x").fst = .error "KeyError: items" := rfl
example : (search_youtube envStatsNoItems "x").fst = .error "KeyError: items" := rfl
example : (get_statistics envStatsEmpty (.str "a")).fst = .error "IndexError: list index out of range" := rfl
example : quote_plus "lo fi" = "lo+fi" := rfl
example : quote_plus "a&b c" = "a%26b+c" := rfl
example : escape_markdown (unescape "Lo-Fi &amp; *Chill*") = "Lo-Fi & \\*Chill\\*" := rfl
example : youtube envNoItems "q" = .error "KeyError: items" := rfl
example : youtube envStats403 "q" = .ok [failureEmbed] := rfl
example : youtube envOk "lo fi" = .ok [successEmbed "lo fi" [vLofi]] := rfl
example : get_statistics envStats403 (.str "a") =
  (.ok none, ["YouTube statistics response not successful: response code 403"]) := rfl

/-! ### Helper lemmas -/

/-- The video a search item yields when its whole processing succeeds. -/
def processedVideo? (env : Env) (item : Json) : Option Video :=
  match processItem env item with
  | .ok (some v) => some v
  | _ => none

theorem buildVideo_ok {item vid stats v} (h : buildVideo item vid stats = .ok v) :
    ∃ t u, titleOf item = some t ∧ channelOf item = some u ∧
      v = ⟨escape_markdown (unescape t), escape_markdown (unescape u), vid, stats⟩ := by
  unfold buildVideo at h
  rcases ht : titleOf item with _ | t <;> rw [ht] at h
  · exact absurd h (by simp)
  rcases hu : channelOf item with _ | u <;> rw [hu] at h
  · exact absurd h (by simp)
  exact ⟨t, u, rfl, rfl, (Except.ok.injEq .. ▸ h).symm⟩

theorem processItem_ok_some {env item v} (h : processItem env item = .ok (some v)) :
    (get_statistics env v.id).fst = .ok (some v.video_statistics) := by
  unfold processItem at h
  split at h
  · exact absurd h (by simp)
  rename_i vid hvid
  split at h
  · exact absurd h (by simp)
  · exact absurd h (by simp)
  rename_i stats hstats
  split at h
  · exact absurd h (by simp)
  rename_i v' hbuild
  obtain rfl : v' = v := by simpa using h
  obtain ⟨t, u, _, _, hv'⟩ := buildVideo_ok hbuild
  subst hv'
  exact hstats

theorem searchLoop_all_ok (env : Env) (items : List Json) :
    ∀ acc : List Video,
    (∀ item ∈ items, ∃ v, processItem env item = .ok (some v)) →
    (searchLoop env items acc).fst =
      .ok (some (acc ++ items.filterMap (processedVideo? env))) := by
  induction items with
  | nil => intro acc _; simp [searchLoop]
  | cons item rest ih =>
    intro acc h
    obtain ⟨v, hv⟩ := h item (by simp)
    have hrest := fun i hi => h i (List.mem_cons_of_mem _ hi)
    simp only [searchLoop, hv, List.filterMap_cons, processedVideo?]
    rw [ih (acc ++ [v]) hrest]
    simp

theorem filterMap_length_of_all_some {α β : Type} (f : α → Option β) :
    ∀ l : List α, (∀ a ∈ l, (f a).isSome) → (l.filterMap f).length = l.length := by
  intro l
  induction l with
  | nil => intro; rfl
  | cons a rest ih =>
    intro h
    obtain ⟨b, hb⟩ := Option.isSome_iff_exists.mp (h a (by simp))
    have := ih (fun x hx => h x (List.mem_cons_of_mem _ hx))
    simp [List.filterMap_cons, hb, this]

theorem filterMap_getElem?_of_all_some {α β : Type} (f : α → Option β) :
    ∀ (l : List α) (k : Nat) (a : α), (∀ x ∈ l, (f x).isSome) →
      l[k]? = some a → (l.filterMap f)[k]? = f a := by
  intro l
  induction l with
  | nil => intro k a _ h; simp at h
  | cons x rest ih =>
    intro k a hall h
    obtain ⟨b, hb⟩ := Option.isSome_iff_exists.mp (hall x (by simp))
    have hrest := fun y hy => hall y (List.mem_cons_of_mem _ hy)
    rcases k with _ | k
    · simp at h
      subst h
      simp [List.filterMap_cons, hb]
    · simp at h
      simpa [List.filterMap_cons, hb] using ih k a hrest h

theorem searchLoop_abort (env : Env) (item : Json) (post : List Json)
    (habs : processItem env item = .ok none) :
    ∀ (pre : List Json) (acc : List Video),
    (∀ i ∈ pre, ∃ v, processItem env i = .ok (some v)) →
    (searchLoop env (pre ++ item :: post) acc).fst = .ok none := by
  intro pre
  induction pre with
  | nil => intro acc _; simp [searchLoop, habs]
  | cons p rest ih =>
    intro acc h
    obtain ⟨v, hv⟩ := h p (by simp)
    have hrest := fun i hi => h i (List.mem_cons_of_mem _ hi)
    simp only [List.cons_append, searchLoop, hv]
    exact ih (acc ++ [v]) hrest

theorem searchLoop_error (env : Env) (item : Json) (post : List Json) (e : String)
    (herr : processItem env item = .error e) :
    ∀ (pre : List Json) (acc : List Video),
    (∀ i ∈ pre, ∃ v, processItem env i = .ok (some v)) →
    (searchLoop env (pre ++ item :: post) acc).fst = .error e := by
  intro pre
  induction pre with
  | nil => intro acc _; simp [searchLoop, herr]
  | cons p rest ih =>
    intro acc h
    obtain ⟨v, hv⟩ := h p (by simp)
    have hrest := fun i hi => h i (List.mem_cons_of_mem _ hi)
    simp only [List.cons_append, searchLoop, hv]
    exact ih (acc ++ [v]) hrest

theorem searchLoop_mem (env : Env) :
    ∀ (items : List Json) (acc vids : List Video),
    (searchLoop env items acc).fst = .ok (some vids) →
    (∀ v ∈ acc, (get_statistics env v.id).fst = .ok (some v.video_statistics)) →
    ∀ v ∈ vids, (get_statistics env v.id).fst = .ok (some v.video_statistics) := by
  intro items
  induction items with
  | nil =>
    intro acc vids h hacc
    simp only [searchLoop] at h
    obtain rfl : acc = vids := by simpa using h
    exact hacc
  | cons item rest ih =>
    intro acc vids h hacc
    simp only [searchLoop] at h
    split at h
    · simp at h
    · simp at h
    rename_i v hp
    simp only at h
    refine ih (acc ++ [v]) vids h ?_
    intro w hw
    rcases List.mem_append.mp hw with hw | hw
    · exact hacc w hw
    · obtain rfl : w = v := by simpa using hw
      exact processItem_ok_some hp

theorem digitCh_inj {a b : Nat} (ha : a < 10) (hb : b < 10)
    (h : digitCh a = digitCh b) : a = b := by
  interval_cases a <;> interval_cases b <;> revert h <;> decide

theorem natChars_length_pos (n : Nat) : 0 < (natChars n).length := by
  rw [natChars]
  split <;> simp

theorem natChars_lt {n : Nat} (h : n < 10) : natChars n = [digitCh n] := by
  rw [natChars]
  simp [h]

theorem natChars_ge {n : Nat} (h : ¬n < 10) :
    natChars n = natChars (n / 10) ++ [digitCh (n % 10)] := by
  rw [natChars]
  simp [h]

theorem natChars_inj : ∀ m n : Nat, natChars m = natChars n → m = n := by
  intro m
  induction m using Nat.strong_induction_on with
  | _ m ih =>
    intro n h
    by_cases hm : m < 10 <;> by_cases hn : n < 10
    · rw [natChars_lt hm, natChars_lt hn] at h
      exact digitCh_inj hm hn (by simpa using h)
    · rw [natChars_lt hm, natChars_ge hn] at h
      have hp := natChars_length_pos (n / 10)
      have hlen := congrArg List.length h
      simp only [List.length_append, List.length_cons, List.length_nil] at hlen
      omega
    · rw [natChars_ge hm, natChars_lt hn] at h
      have hp := natChars_length_pos (m / 10)
      have hlen := congrArg List.length h
      simp only [List.length_append, List.length_cons, List.length_nil] at hlen
      omega
    · rw [natChars_ge hm, natChars_ge hn] at h
      obtain ⟨h3, h4⟩ := List.append_inj' h (by simp)
      have hd : m / 10 = n / 10 :=
        ih (m / 10) (Nat.div_lt_self (by omega) (by omega)) (n / 10) h3
      have hm2 : m % 10 = n % 10 :=
        digitCh_inj (Nat.mod_lt _ (by omega)) (Nat.mod_lt _ (by omega))
          (by simpa using h4)
      omega

theorem natStr_inj {m n : Nat} (h : natStr m = natStr n) : m = n :=
  natChars_inj m n (congrArg String.data h)

theorem formatLines_length (vids : List Video) :
    (formatLines vids).length = vids.length := by
  simp [formatLines]

theorem formatLines_getElem? (vids : List Video) (k : Nat) (v : Video)
    (h : vids[k]? = some v) :
    (formatLines vids)[k]? = some (format_search_result (k + 1) v) := by
  unfold formatLines
  rw [List.getElem?_map, List.getElem?_enumFrom, h]
  simp [Nat.add_comm]

theorem search_youtube_items (env : Env) (search : String) (items : List Json)
    (hstatus : env.search_response.status = 200)
    (hitems : env.search_response.body.get "items" = some (Json.arr items)) :
    search_youtube env search = searchLoop env items [] := by
  unfold search_youtube
  rw [hstatus]
  simp [hitems, Json.asArr]

/-! ### Claims -/

/-- C1: for every search that returns N items and for which all N
statistics fetches succeed, `search_youtube` returns a list of N
`Video`s in the order the search API supplied them, and the command
handler's success reply contains exactly N formatted lines whose rank
indices are 1..N in that same order. -/
theorem C1_search_order_and_reply (env : Env) (search : String) (items : List Json)
    (hstatus : env.search_response.status = 200)
    (hitems : env.search_response.body.get "items" = some (Json.arr items))
    (hok : ∀ item ∈ items, ∃ v, processItem env item = .ok (some v)) :
    ∃ vids : List Video,
      (search_youtube env search).fst = .ok (some vids) ∧
      vids.length = items.length ∧
      (∀ (k : Nat) (item : Json), items[k]? = some item →
        vids[k]? = processedVideo? env item) ∧
      (items ≠ [] →
        youtube env search = .ok [successEmbed search vids] ∧
        (successEmbed search vids).description =
          String.intercalate "\n" (formatLines vids) ∧
        (formatLines vids).length = vids.length ∧
        ∀ (k : Nat) (v : Video), vids[k]? = some v →
          (formatLines vids)[k]? = some (format_search_result (k + 1) v)) := by
  have hsome : ∀ item ∈ items, (processedVideo? env item).isSome := by
    intro item hi
    obtain ⟨v, hv⟩ := hok item hi
    simp [processedVideo?, hv]
  have hres : (search_youtube env search).fst =
      .ok (some (items.filterMap (processedVideo? env))) := by
    rw [search_youtube_items env search items hstatus hitems]
    simpa using searchLoop_all_ok env items [] hok
  have hlen := filterMap_length_of_all_some (processedVideo? env) items hsome
  refine ⟨_, hres, hlen,
    fun k item hk => filterMap_getElem?_of_all_some _ items k item hsome hk,
    fun hne => ?_⟩
  have hv_ne : items.filterMap (processedVideo? env) ≠ [] := by
    intro hnil
    rw [hnil] at hlen
    have : items.length = 0 := by simpa using hlen.symm
    exact hne (List.length_eq_zero.mp this)
  obtain ⟨v, vs, hcons⟩ := List.exists_cons_of_ne_nil hv_ne
  have hyt : youtube env search =
      .ok [successEmbed search (items.filterMap (processedVideo? env))] := by
    unfold youtube
    rw [hres, hcons]
  exact ⟨hyt, rfl, formatLines_length _,
    fun k v hkv => formatLines_getElem? _ k v hkv⟩

theorem C1_witness :
    ∃ vids : List Video, (search_youtube envOk "lo fi").fst = .ok (some vids) := by
  have h := C1_search_order_and_reply envOk "lo fi" [itemLofi] rfl rfl
    (by intro item hi
        rw [List.mem_singleton] at hi
        subst hi
        exact ⟨vLofi, rfl⟩)
  exact ⟨h.choose, h.choose_spec.1⟩

/-- C2: if the statistics fetch for the item after `pre` (i.e. at
1-based position `pre.length + 1`) returns absence while every earlier
item processed successfully, `search_youtube` returns absence for the
whole batch; and every `Video` of any returned list carries the
statistics successfully fetched for its id. -/
theorem C2_stats_absence_aborts (env : Env) (search : String)
    (pre post : List Json) (item vid : Json)
    (hstatus : env.search_response.status = 200)
    (hitems : env.search_response.body.get "items" =
      some (Json.arr (pre ++ item :: post)))
    (hpre : ∀ i ∈ pre, ∃ v, processItem env i = .ok (some v))
    (hvid : extractVideoId item = .ok vid)
    (habs : (get_statistics env vid).fst = .ok none) :
    (search_youtube env search).fst = .ok none ∧
    ∀ (env2 : Env) (s2 : String) (vids : List Video),
      (search_youtube env2 s2).fst = .ok (some vids) →
      ∀ v ∈ vids, (get_statistics env2 v.id).fst = .ok (some v.video_statistics) := by
  constructor
  · rw [search_youtube_items env search _ hstatus hitems]
    have habort : processItem env item = .ok none := by
      unfold processItem
      split
      · rename_i e he
        rw [he] at hvid
        cases hvid
      rename_i vid' he
      rw [he] at hvid
      obtain rfl : vid' = vid := by injection hvid
      split
      · rename_i e he2
        rw [he2] at habs
        cases habs
      · rfl
      · rename_i stats he2
        rw [he2] at habs
        exact absurd habs (by simp)
    exact searchLoop_abort env item post habort pre [] hpre
  · intro env2 s2 vids hres v hv
    unfold search_youtube at hres
    split at hres
    · simp at hres
    split at hres
    · simp at hres
    split at hres
    · simp at hres
    exact searchLoop_mem env2 _ [] vids hres (by simp) v hv

theorem C2_witness : (search_youtube envStats403 "lo fi").fst = .ok none :=
  (C2_stats_absence_aborts envStats403 "lo fi" [] [] itemLofi (Json.str "abc123")
    rfl rfl (by simp) rfl rfl).1

/-- C3: when the search endpoint responds with a non-200 status,
`search_youtube` returns absence and issues zero statistics requests
(the recorded details-call trace is empty). -/
theorem C3_search_non200 (env : Env) (search : String)
    (h : env.search_response.status ≠ 200) :
    search_youtube env search = (.ok none, []) := by
  unfold search_youtube
  simp [h]

theorem C3_witness : search_youtube envSearch403 "lo fi" = (.ok none, []) :=
  C3_search_non200 envSearch403 "lo fi" (by decide)

/-- C4: contrary to the claim, the values stored in a `VideoStatistics`
built by `get_statistics` are the raw JSON values of `viewCount` and
`likeCount` with no integer conversion: on the provider's wire format,
which carries the counts as JSON strings (cf. the spec's own example
`{viewCount: "100", likeCount: "10"}`), the stored fields are strings,
not integers, although the dataclass annotates them as `int`. -/
theorem C4_raw_string_counts :
    (get_statistics envOk (Json.str "abc123")).fst =
      .ok (some ⟨Json.str "100", Json.str "10"⟩) ∧
    Json.isInt (Json.str "100") = false ∧
    Json.isInt (Json.str "10") = false :=
  ⟨rfl, rfl, rfl⟩

/-- C5: every `Video` built from a search item has title and username
equal to the item's snippet title and channelTitle with HTML entities
decoded first and markdown control characters escaped second; in
particular `*` and `_` come out escaped and `&amp;` comes out
decoded. -/
theorem C5_unescape_then_escape :
    (∀ (item vid : Json) (stats : VideoStatistics) (v : Video),
      buildVideo item vid stats = .ok v →
      ∃ t u, titleOf item = some t ∧ channelOf item = some u ∧
        v.title = escape_markdown (unescape t) ∧
        v.username = escape_markdown (unescape u)) ∧
    escape_markdown (unescape "Lo-Fi &amp; *Chill*") = "Lo-Fi & \\*Chill\\*" ∧
    escape_markdown (unescape "my_channel &lt;3") = "my\\_channel <3" := by
  refine ⟨?_, rfl, rfl⟩
  intro item vid stats v h
  obtain ⟨t, u, ht, hu, hv⟩ := buildVideo_ok h
  exact ⟨t, u, ht, hu, by rw [hv], by rw [hv]⟩

theorem C5_witness :
    ∃ t u, titleOf itemLofi = some t ∧ channelOf itemLofi = some u ∧
      vLofi.title = escape_markdown (unescape t) ∧
      vLofi.username = escape_markdown (unescape u) :=
  C5_unescape_then_escape.1 itemLofi (Json.str "abc123")
    ⟨Json.str "100", Json.str "10"⟩ vLofi rfl

/-- C6: formatting is injective on rank, and the rendered line is the
fixed prefix `**`, then the rank number, then a tail (`rankTail`) that
depends only on the video — so two lines for the same video differ only
in the leading rank number. -/
theorem C6_rank_injective (i j : Nat) (v : Video) :
    (i ≠ j → format_search_result i v ≠ format_search_result j v) ∧
    format_search_result i v = "**" ++ natStr i ++ rankTail v := by
  refine ⟨fun hne heq => hne ?_, rfl⟩
  have h := congrArg String.data heq
  simp only [format_search_result, String.data_append] at h
  exact natStr_inj (String.ext (List.append_cancel_left (List.append_cancel_right h)))

theorem C6_witness :
    format_search_result 1 vLofi ≠ format_search_result 2 vLofi :=
  (C6_rank_injective 1 2 vLofi).1 (by decide)

/-- C7: `get_statistics` returns absence (never a thrown fault) exactly
when the details endpoint responds non-200, logging the status in that
case; on a 200 response of the expected shape it returns a
`VideoStatistics` built from the `viewCount` and `likeCount` of
`items[0].statistics`, logging nothing. -/
theorem C7_stats_absence_iff_non200 (env : Env) (id : Json) :
    ((env.stats_response id).status ≠ 200 →
      get_statistics env id = (.ok none,
        ["YouTube statistics response not successful: response code " ++
          toString (env.stats_response id).status])) ∧
    ((env.stats_response id).status = 200 →
      (∀ r, (get_statistics env id).fst = .ok r → r ≠ none) ∧
      ∀ items first stats vc lc,
        (env.stats_response id).body.get "items" = some items →
        items.idx 0 = some first →
        first.get "statistics" = some stats →
        stats.get "viewCount" = some vc →
        stats.get "likeCount" = some lc →
        get_statistics env id = (.ok (some ⟨vc, lc⟩), [])) := by
  constructor
  · intro h
    unfold get_statistics
    simp [h]
  · intro h
    constructor
    · intro r hr hrnone
      subst hrnone
      unfold get_statistics at hr
      simp only [h, ne_eq, not_true_eq_false, if_neg, ite_false] at hr
      split at hr
      · exact absurd hr (by simp)
      split at hr
      · exact absurd hr (by simp)
      split at hr
      · exact absurd hr (by simp)
      split at hr
      · exact absurd hr (by simp)
      split at hr
      · exact absurd hr (by simp)
      · exact absurd hr (by simp)
    · intro items first stats vc lc h1 h2 h3 h4 h5
      unfold get_statistics
      simp [h, h1, h2, h3, h4, h5]

theorem C7_witness :
    get_statistics envStats403 (Json.str "abc123") =
      (.ok none,
        ["YouTube statistics response not successful: response code " ++
          toString (403 : Nat)]) ∧
    get_statistics envOk (Json.str "abc123") =
      (.ok (some ⟨Json.str "100", Json.str "10"⟩), []) :=
  ⟨(C7_stats_absence_iff_non200 envStats403 (Json.str "abc123")).1 (by decide),
   ((C7_stats_absence_iff_non200 envOk (Json.str "abc123")).2 rfl).2
     _ _ _ _ _ rfl rfl rfl rfl rfl⟩

/-- C8 (amended): every command invocation in which `search_youtube`
does not raise an uncaught structural error sends exactly one reply
message, and whenever `search_youtube` returns absence or an empty list
the reply is the same fixed failure message — so the user cannot
distinguish a search failure, a statistics failure, or zero results. -/
theorem C8_amended_single_reply (env : Env) (search : String) :
    (∀ msgs, youtube env search = .ok msgs → msgs.length = 1) ∧
    ((search_youtube env search).fst = .ok none ∨
        (search_youtube env search).fst = .ok (some []) →
      youtube env search = .ok [failureEmbed]) := by
  constructor
  · intro msgs h
    unfold youtube at h
    split at h
    · simp at h
    split at h <;>
      (injection h with h2; rw [← h2]; rfl)
  · intro h
    unfold youtube
    rcases h with h | h <;> rw [h]

/-- C8, as stated, is false: on a 200 search response whose body lacks
`items`, the handler aborts with the uncaught structural error before
`ctx.send`, so that invocation sends zero reply messages, not one. -/
theorem C8_counterexample_no_reply :
    youtube envNoItems "lo fi" = .error "KeyError: items" ∧
    (sentMessages (youtube envNoItems "lo fi")).length = 0 :=
  ⟨rfl, rfl⟩

theorem C8_witness : youtube envStats403 "lo fi" = .ok [failureEmbed] :=
  (C8_amended_single_reply envStats403 "lo fi").2 (Or.inl rfl)

/-- C9: a 200 response whose body lacks the expected shape is not
caught: the structural error propagates out of `get_statistics` (missing
`items` key, empty `items` array) and out of `search_youtube` (missing
`items` key on the search body; an error raised inside a statistics
fetch passes through the loop), instead of being converted to
absence. -/
theorem C9_structural_errors_propagate :
    (∀ (env : Env) (id : Json),
      (env.stats_response id).status = 200 →
      (env.stats_response id).body.get "items" = none →
      (get_statistics env id).fst = .error "KeyError: items") ∧
    (∀ (env : Env) (id : Json),
      (env.stats_response id).status = 200 →
      (env.stats_response id).body.get "items" = some (Json.arr []) →
      (get_statistics env id).fst = .error "IndexError: list index out of range") ∧
    (∀ (env : Env) (search : String),
      env.search_response.status = 200 →
      env.search_response.body.get "items" = none →
      (search_youtube env search).fst = .error "KeyError: items") ∧
    (∀ (env : Env) (search : String) (pre post : List Json) (item vid : Json)
        (e : String),
      env.search_response.status = 200 →
      env.search_response.body.get "items" = some (Json.arr (pre ++ item :: post)) →
      (∀ i ∈ pre, ∃ v, processItem env i = .ok (some v)) →
      extractVideoId item = .ok vid →
      (get_statistics env vid).fst = .error e →
      (search_youtube env search).fst = .error e) := by
  refine ⟨?_, ?_, ?_, ?_⟩
  · intro env id h1 h2
    unfold get_statistics
    simp [h1, h2]
  · intro env id h1 h2
    unfold get_statistics
    simp [h1, h2, Json.idx]
  · intro env search h1 h2
    unfold search_youtube
    simp [h1, h2]
  · intro env search pre post item vid e h1 h2 hpre hvid hstats
    rw [search_youtube_items env search _ h1 h2]
    have herr : processItem env item = .error e := by
      unfold processItem
      split
      · rename_i e2 he
        rw [he] at hvid
        cases hvid
      rename_i vid' he
      rw [he] at hvid
      obtain rfl : vid' = vid := by injection hvid
      split
      · rename_i e2 he2
        rw [he2] at hstats
        injection hstats with h3
        rw [h3]
      · rename_i he2
        rw [he2] at hstats
        exact absurd hstats (by simp)
      · rename_i stats he2
        rw [he2] at hstats
        exact absurd hstats (by simp)
    exact searchLoop_error env item post e herr pre [] hpre

theorem C9_witness :
    (get_statistics envStatsNoItems (Json.str "abc123")).fst =
      .error "KeyError: items" ∧
    (get_statistics envStatsEmpty (Json.str "abc123")).fst =
      .error "IndexError: list index out of range" ∧
    (search_youtube envNoItems "q").fst = .error "KeyError: items" ∧
    (search_youtube envStatsNoItems "q").fst = .error "KeyError: items" :=
  ⟨C9_structural_errors_propagate.1 envStatsNoItems (Json.str "abc123") rfl rfl,
   C9_structural_errors_propagate.2.1 envStatsEmpty (Json.str "abc123") rfl rfl,
   C9_structural_errors_propagate.2.2.1 envNoItems "q" rfl rfl,
   C9_structural_errors_propagate.2.2.2 envStatsNoItems "q" [] [] itemLofi
     (Json.str "abc123") "KeyError: items" rfl rfl (by simp) rfl rfl⟩

/-- C10: the success reply's embedded web-search link is the fixed
results URL followed by the query percent-encoded via `quote_plus`
(spaces become `+`), while the embed title interpolates the raw,
unescaped search text. -/
theorem C10_success_link_and_title (env : Env) (search : String)
    (v : Video) (vs : List Video)
    (h : (search_youtube env search).fst = .ok (some (v :: vs))) :
    youtube env search = .ok [successEmbed search (v :: vs)] ∧
    (successEmbed search (v :: vs)).url =
      some ("https://www.youtube.com/results?search_query=" ++ quote_plus search) ∧
    (successEmbed search (v :: vs)).title =
      Emojis.youtube ++ " YouTube results for `" ++ search ++ "`" ∧
    quote_plus "lo fi beats" = "lo+fi+beats" ∧
    quote_plus "C&A logo" = "C%26A+logo" := by
  refine ⟨?_, rfl, rfl, rfl, rfl⟩
  unfold youtube
  rw [h]

theorem C10_witness : youtube envOk "lo fi" = .ok [successEmbed "lo fi" [vLofi]] :=
  (C10_success_link_and_title envOk "lo fi" vLofi [] rfl).1
